import Mathlib

/-!
Verification of the ArchStone ARMv4T/Thumb-1 disassembler.

Shallow embedding of `python/archstone/arm_disassembler.py` and
`python/archstone/thumb_disassembler.py`.  Python integers are embedded as
`Nat` while they are provably nonnegative and as `Int` where the source can
produce negative values (the sign-extension steps).  Python `None`-as-rejection
is embedded as `Option.none`; Python runtime exceptions are embedded in an
`Except PyErr` layer.  List indexing `xs[i]` is embedded as `List.get?` with an
`IndexError` on the out-of-range case, exactly as Python would raise.
-/

set_option maxRecDepth 16384

namespace ArchStone

/-- Runtime errors of the embedded Python code. -/
inductive PyErr
  | attributeError
  | indexError
  deriving DecidableEq

/-- Python formatting of a nonnegative integer with the format spec `x`
(lowercase hexadecimal, no leading zeros, `"0"` for zero). -/
def pyHex (n : Nat) : String :=
  String.mk (Nat.toDigits 16 n)

/-- Python formatting of an arbitrary integer with the format spec `x`
(negative values get a leading minus sign). -/
def pyHexInt (z : Int) : String :=
  if z < 0 then "-" ++ pyHex (-z).toNat else pyHex z.toNat

/-- Python rendering of an optional string in an f-string: `None` prints as
the four characters `None`. -/
def pyStr (s : Option String) : String :=
  match s with
  | none => "None"
  | some s => s

/-- Bitwise difference on `Nat` (bits of `m` with the bits of `n` cleared),
written with kernel-computable primitives: `m ^^^ (m &&& n)` has exactly the
bits of `m` that are not bits of `n`. -/
def natDiff (m n : Nat) : Nat :=
  m ^^^ (m &&& n)

/-- Python `&` on arbitrary-precision integers in two's complement. -/
def pyIntAnd (a b : Int) : Int :=
  match a, b with
  | .ofNat m, .ofNat n => .ofNat (m &&& n)
  | .ofNat m, .negSucc n => .ofNat (natDiff m n)
  | .negSucc m, .ofNat n => .ofNat (natDiff n m)
  | .negSucc m, .negSucc n => .negSucc (m ||| n)

/-- Python `|` on arbitrary-precision integers in two's complement. -/
def pyIntOr (a b : Int) : Int :=
  match a, b with
  | .ofNat m, .ofNat n => .ofNat (m ||| n)
  | .ofNat m, .negSucc n => .negSucc (natDiff n m)
  | .negSucc m, .ofNat n => .negSucc (natDiff m n)
  | .negSucc m, .negSucc n => .negSucc (m &&& n)

/-- Python `~` on arbitrary-precision integers: `~x = -(x + 1)`. -/
def pyIntNot (a : Int) : Int :=
  match a with
  | .ofNat m => .negSucc m
  | .negSucc m => .ofNat m

/-- Embedding of `class RawArmInstruction`: a boxed instruction word. -/
structure RawArmInstruction where
  value : Nat
  deriving DecidableEq

namespace RawArmInstruction

/-- The constructor masks the supplied value to 32 bits:
`self.value = value & 0xFFFFFFFF`. -/
def init (value : Nat) : RawArmInstruction :=
  ⟨value &&& 0xFFFFFFFF⟩

/-- `get_bit(self, n): return (self.value >> n) & 1` -/
def get_bit (self : RawArmInstruction) (n : Nat) : Nat :=
  (self.value >>> n) &&& 1

/-- `get_bits(self, start, end)` returns the inclusive bit range:
`mask = (1 << (end - start + 1)) - 1; return (self.value >> start) & mask`. -/
def get_bits (self : RawArmInstruction) (start stop : Nat) : Nat :=
  (self.value >>> start) &&& ((1 <<< (stop - start + 1)) - 1)

end RawArmInstruction

namespace Armv4TDisassembler

open RawArmInstruction

/-- The local table `CONDITION_CODES` defined inside `get_cond`. -/
def CONDITION_CODES : List String :=
  ["EQ", "NE", "CS", "CC", "MI", "PL", "VS", "VC",
   "HI", "LS", "GE", "LT", "GT", "LE", "AL", "NV"]

/-- The attribute lookup `self.CONDITION_CODES` performed by `get_cond`.
The class `Armv4TDisassembler` has no `__init__` and never assigns an
attribute of this name (the table above is only a local variable of
`get_cond`), so the lookup finds nothing and Python raises `AttributeError`. -/
def selfAttrCONDITION_CODES : Option (List String) :=
  none

/-- Embedding of `get_cond`: looks up `self.CONDITION_CODES[instr.get_bits(28, 31)]`
and maps the `AL` condition to the empty suffix.  Because the attribute
`self.CONDITION_CODES` does not exist, every call raises `AttributeError`. -/
def get_cond (instr : RawArmInstruction) : Except PyErr String :=
  match selfAttrCONDITION_CODES with
  | none => .error .attributeError
  | some table =>
    match table.get? (instr.get_bits 28 31) with
    | none => .error .indexError
    | some cond_code => .ok (if cond_code = "AL" then "" else cond_code)

/-- Every call of the embedded `get_cond` raises `AttributeError`, because
`self.CONDITION_CODES` is an attribute lookup on an attribute that is never
defined (`CONDITION_CODES` is only a local variable of `get_cond`). -/
theorem get_cond_raises (instr : RawArmInstruction) :
    get_cond instr = .error .attributeError := rfl

/-- Embedding of `format_addressing_mode1` (data-processing operands). -/
def format_addressing_mode1 (instr : RawArmInstruction) : Except PyErr (Option String) :=
  let i := instr.get_bit 25
  if i ≠ 0 then
    let imm := instr.get_bits 0 7
    let rot := instr.get_bits 8 11 * 2
    let rotated := ((imm >>> rot) ||| (imm <<< (32 - rot))) &&& 0xFFFFFFFF
    .ok (some ("#0x" ++ pyHex rotated))
  else
    let shift_imm := instr.get_bits 7 11
    let shift := instr.get_bits 5 6
    match ["LSL", "LSR", "ASR", "ROR"].get? shift with
    | none => .error .indexError
    | some shift_name =>
      let rm := instr.get_bits 0 3
      if shift_name = "LSL" ∧ shift_imm = 0 then
        .ok (some ("r" ++ toString rm))
      else if shift_name = "ROR" ∧ shift_imm = 0 then
        .ok (some ("r" ++ toString rm ++ ", RRX"))
      else if instr.get_bit 4 ≠ 0 then
        if instr.get_bit 7 ≠ 0 then
          .ok none
        else
          let rs := instr.get_bits 8 11
          .ok (some ("r" ++ toString rm ++ ", " ++ shift_name ++ " r" ++ toString rs))
      else
        .ok (some ("r" ++ toString rm ++ ", " ++ shift_name ++ " #" ++ toString shift_imm))

/-- Embedding of `format_addressing_mode2` (load/store word or unsigned byte). -/
def format_addressing_mode2 (instr : RawArmInstruction) : Except PyErr (Option String) :=
  let i := instr.get_bit 25
  let p := instr.get_bit 24
  let u := instr.get_bit 23
  let w := instr.get_bit 21
  let rn := instr.get_bits 16 19
  let sign := if u ≠ 0 then "" else "-"
  if i = 0 then
    let offset := instr.get_bits 0 11
    if p ≠ 0 then
      .ok (some ("[r" ++ toString rn ++ ", #" ++ sign ++ "0x" ++ pyHex offset ++ "]"
        ++ (if w ≠ 0 then "!" else "")))
    else
      .ok (some ("[r" ++ toString rn ++ "], #" ++ sign ++ "0x" ++ pyHex offset))
  else
    if instr.get_bit 4 ≠ 0 then
      .ok none
    else
      let shift_imm := instr.get_bits 7 11
      let shift := instr.get_bits 5 6
      let rm := instr.get_bits 0 3
      match ["LSL", "LSR", "ASR", "ROR"].get? shift with
      | none => .error .indexError
      | some shift_name =>
        if shift_name = "LSL" ∧ shift_imm = 0 then
          if p ≠ 0 then
            .ok (some ("[r" ++ toString rn ++ ", " ++ sign ++ "r" ++ toString rm ++ "]"
              ++ (if w ≠ 0 then "!" else "")))
          else
            .ok (some ("[r" ++ toString rn ++ "], " ++ sign ++ "r" ++ toString rm))
        else if shift_name = "ROR" ∧ shift_imm = 0 then
          if p ≠ 0 then
            .ok (some ("[r" ++ toString rn ++ ", " ++ sign ++ "r" ++ toString rm ++ ", RRX]"
              ++ (if w ≠ 0 then "!" else "")))
          else
            .ok (some ("[r" ++ toString rn ++ "], " ++ sign ++ "r" ++ toString rm ++ ", RRX"))
        else
          if p ≠ 0 then
            .ok (some ("[r" ++ toString rn ++ ", " ++ sign ++ "r" ++ toString rm ++ ", "
              ++ shift_name ++ " #" ++ toString shift_imm ++ "]"
              ++ (if w ≠ 0 then "!" else "")))
          else
            .ok (some ("[r" ++ toString rn ++ "], " ++ sign ++ "r" ++ toString rm ++ ", "
              ++ shift_name ++ " #" ++ toString shift_imm))

/-- Embedding of `format_addressing_mode3` (halfword / signed byte load-store). -/
def format_addressing_mode3 (instr : RawArmInstruction) : Except PyErr (Option String) :=
  let p := instr.get_bit 24
  let u := instr.get_bit 23
  let i := instr.get_bit 22
  let w := instr.get_bit 21
  let rn := instr.get_bits 16 19
  let sign := if u ≠ 0 then "" else "-"
  if i ≠ 0 then
    let imm_high := instr.get_bits 8 11
    let imm_low := instr.get_bits 0 3
    let imm := (imm_high <<< 4) ||| imm_low
    if p ≠ 0 then
      .ok (some ("[r" ++ toString rn ++ ", #" ++ sign ++ "0x" ++ pyHex imm ++ "]"
        ++ (if w ≠ 0 then "!" else "")))
    else if w = 0 then
      .ok (some ("[r" ++ toString rn ++ "], #" ++ sign ++ "0x" ++ pyHex imm))
    else
      .ok none
  else
    if instr.get_bits 8 11 ≠ 0 then
      .ok none
    else
      let rm := instr.get_bits 0 3
      if p ≠ 0 then
        .ok (some ("[r" ++ toString rn ++ ", " ++ sign ++ "r" ++ toString rm ++ "]"
          ++ (if w ≠ 0 then "!" else "")))
      else if w = 0 then
        .ok (some ("[r" ++ toString rn ++ "], " ++ sign ++ "r" ++ toString rm))
      else
        .ok none

/-- Embedding of `format_addressing_mode4` (load/store multiple). -/
def format_addressing_mode4 (instr : RawArmInstruction) : Except PyErr (Option String) :=
  let p := instr.get_bit 24
  let u := instr.get_bit 23
  match ["DA", "IA", "DB", "IB"].get? ((p <<< 1) ||| u) with
  | none => .error .indexError
  | some s => .ok (some s)

/-- Embedding of `format_addressing_mode5` (coprocessor load/store). -/
def format_addressing_mode5 (instr : RawArmInstruction) : Except PyErr (Option String) :=
  let p := instr.get_bit 24
  let u := instr.get_bit 23
  let w := instr.get_bit 21
  let rn := instr.get_bits 16 19
  let offset := instr.get_bits 0 7 * 4
  let sign := if u ≠ 0 then "" else "-"
  if p ≠ 0 then
    .ok (some ("[r" ++ toString rn ++ ", #" ++ sign ++ "0x" ++ pyHex offset ++ "]"
      ++ (if w ≠ 0 then "!" else "")))
  else if w = 0 then
    .ok (some ("[r" ++ toString rn ++ "], #" ++ sign ++ "0x" ++ pyHex offset))
  else
    .ok none

/-- Embedding of `disassemble_software_interrupt`. -/
def disassemble_software_interrupt (instr : RawArmInstruction) : Except PyErr (Option String) :=
  let swi_number := instr.get_bits 0 23
  match get_cond instr with
  | .error e => .error e
  | .ok cond => .ok (some ("SWI" ++ cond ++ " #0x" ++ pyHex swi_number))

/-- Embedding of `disassemble_branch_exchange`. -/
def disassemble_branch_exchange (instr : RawArmInstruction) : Except PyErr (Option String) :=
  if instr.get_bits 8 19 ≠ 0xFFF then
    .ok none
  else
    let rm := instr.get_bits 0 3
    match get_cond instr with
    | .error e => .error e
    | .ok cond => .ok (some ("BX" ++ cond ++ " r" ++ toString rm))

/-- Embedding of lines 211 to 218 of `disassemble_branch_and_branch_with_link`:
the value held by the Python variable `offset` after
`offset <<= 2`, the conditional `offset |= ~((1 << 26) - 1)` sign-extension and
`offset = (offset + 8) & 0xFFFFFFFF`.  The `|=` step can make the Python int
negative, so this value lives in `Int`. -/
def branch_offset_value (instr : RawArmInstruction) : Int :=
  let offset := instr.get_bits 0 23
  let offset := offset <<< 2
  let offsetI : Int :=
    if offset &&& (1 <<< 25) ≠ 0 then
      pyIntOr (offset : Int) (pyIntNot (((1 <<< 26) - 1 : Nat) : Int))
    else
      (offset : Int)
  pyIntAnd (offsetI + 8) ((0xFFFFFFFF : Nat) : Int)

/-- Embedding of `disassemble_branch_and_branch_with_link`. -/
def disassemble_branch_and_branch_with_link (instr : RawArmInstruction) :
    Except PyErr (Option String) :=
  let l := instr.get_bit 24
  let offset := branch_offset_value instr
  match get_cond instr with
  | .error e => .error e
  | .ok cond =>
    .ok (some ((if l ≠ 0 then "BL" else "B") ++ cond ++ " #0x" ++ pyHexInt offset))

/-- Embedding of `disassemble_coprocessor_register_transfer`. -/
def disassemble_coprocessor_register_transfer (instr : RawArmInstruction) :
    Except PyErr (Option String) :=
  let op1 := instr.get_bits 21 23
  let l := instr.get_bit 20
  let crn := instr.get_bits 16 19
  let rd := instr.get_bits 12 15
  let cp_num := instr.get_bits 8 11
  let op2 := instr.get_bits 5 7
  let crm := instr.get_bits 0 3
  match get_cond instr with
  | .error e => .error e
  | .ok cond =>
    .ok (some ((if l ≠ 0 then "MRC" else "MCR") ++ cond ++ " p" ++ toString cp_num
      ++ ", #" ++ toString op1 ++ ", r" ++ toString rd ++ ", c" ++ toString crn
      ++ ", c" ++ toString crm ++ ", #" ++ toString op2))

/-- Embedding of `disassemble_coprocessor_data_processing`. -/
def disassemble_coprocessor_data_processing (instr : RawArmInstruction) :
    Except PyErr (Option String) :=
  let op1 := instr.get_bits 20 23
  let crn := instr.get_bits 16 19
  let crd := instr.get_bits 12 15
  let cp_num := instr.get_bits 8 11
  let op2 := instr.get_bits 5 7
  let crm := instr.get_bits 0 3
  match get_cond instr with
  | .error e => .error e
  | .ok cond =>
    .ok (some ("CDP" ++ cond ++ " p" ++ toString cp_num ++ ", #" ++ toString op1
      ++ ", c" ++ toString crd ++ ", c" ++ toString crn ++ ", c" ++ toString crm
      ++ ", #" ++ toString op2))

/-- Embedding of `disassemble_coprocessor_load_and_store`. -/
def disassemble_coprocessor_load_and_store (instr : RawArmInstruction) :
    Except PyErr (Option String) :=
  let l := instr.get_bit 20
  let crd := instr.get_bits 12 15
  let cp_num := instr.get_bits 8 11
  match format_addressing_mode5 instr with
  | .error e => .error e
  | .ok addressing_mode =>
    match addressing_mode with
    | none => .ok none
    | some am =>
      if am = "" then .ok none
      else
        match get_cond instr with
        | .error e => .error e
        | .ok cond =>
          .ok (some ((if l ≠ 0 then "LDC" else "STC") ++ cond ++ " p" ++ toString cp_num
            ++ ", c" ++ toString crd ++ ", " ++ am))

/-- Embedding of `disassemble_load_or_store_multiple`. -/
def disassemble_load_or_store_multiple (instr : RawArmInstruction) :
    Except PyErr (Option String) :=
  let s := instr.get_bit 22
  let w := instr.get_bit 21
  let l := instr.get_bit 20
  let reg_list := instr.get_bits 0 15
  let rn := instr.get_bits 16 19
  match format_addressing_mode4 instr with
  | .error e => .error e
  | .ok addressing_mode =>
    if (s ≠ 0 ∧ w ≠ 0) ∨ reg_list = 0 ∨ rn = 15 then
      .ok none
    else
      let registers := (List.range 16).filterMap
        (fun i => if reg_list &&& (1 <<< i) ≠ 0 then some ("r" ++ toString i) else none)
      match get_cond instr with
      | .error e => .error e
      | .ok cond =>
        .ok (some ((if l ≠ 0 then "LDM" else "STM") ++ pyStr addressing_mode ++ cond
          ++ " r" ++ toString rn ++ (if w ≠ 0 then "!" else "")
          ++ ", \x7b" ++ String.intercalate ", " registers ++ "\x7d"
          ++ (if s ≠ 0 then " ^" else "")))

/-- Embedding of `disassemble_load_or_store`. -/
def disassemble_load_or_store (instr : RawArmInstruction) : Except PyErr (Option String) :=
  let p := instr.get_bit 24
  let b := instr.get_bit 22
  let w := instr.get_bit 21
  let l := instr.get_bit 20
  let rd := instr.get_bits 12 15
  match format_addressing_mode2 instr with
  | .error e => .error e
  | .ok addressing_mode =>
    match addressing_mode with
    | none => .ok none
    | some am =>
      if am = "" then .ok none
      else
        match get_cond instr with
        | .error e => .error e
        | .ok cond =>
          .ok (some ((if l ≠ 0 then "LDR" else "STR") ++ (if b ≠ 0 then "B" else "")
            ++ (if p = 0 ∧ w ≠ 0 then "T" else "") ++ cond
            ++ " r" ++ toString rd ++ ", " ++ am))

/-- Embedding of `disassemble_multiply`. -/
def disassemble_multiply (instr : RawArmInstruction) : Except PyErr (Option String) :=
  let a := instr.get_bit 21
  let s := instr.get_bit 20
  let rd := instr.get_bits 16 19
  let rs := instr.get_bits 8 11
  let rm := instr.get_bits 0 3
  if a ≠ 0 then
    let rn := instr.get_bits 12 15
    match get_cond instr with
    | .error e => .error e
    | .ok cond =>
      .ok (some ("MLA" ++ (if s ≠ 0 then "S" else "") ++ cond ++ " r" ++ toString rd
        ++ ", r" ++ toString rm ++ ", r" ++ toString rs ++ ", r" ++ toString rn))
  else
    if instr.get_bits 12 15 ≠ 0 then
      .ok none
    else
      match get_cond instr with
      | .error e => .error e
      | .ok cond =>
        .ok (some ("MUL" ++ (if s ≠ 0 then "S" else "") ++ cond ++ " r" ++ toString rd
          ++ ", r" ++ toString rm ++ ", r" ++ toString rs))

/-- Embedding of `disassemble_multiply_long`. -/
def disassemble_multiply_long (instr : RawArmInstruction) : Except PyErr (Option String) :=
  let u := instr.get_bit 22
  let a := instr.get_bit 21
  let s := instr.get_bit 20
  let rdhi := instr.get_bits 16 19
  let rdlo := instr.get_bits 12 15
  let rs := instr.get_bits 8 11
  let rm := instr.get_bits 0 3
  match get_cond instr with
  | .error e => .error e
  | .ok cond =>
    if u ≠ 0 then
      .ok (some ((if a ≠ 0 then "SMLAL" else "SMULL") ++ (if s ≠ 0 then "S" else "") ++ cond
        ++ " r" ++ toString rdlo ++ ", r" ++ toString rdhi
        ++ ", r" ++ toString rm ++ ", r" ++ toString rs))
    else
      .ok (some ((if a ≠ 0 then "UMLAL" else "UMULL") ++ (if s ≠ 0 then "S" else "") ++ cond
        ++ " r" ++ toString rdlo ++ ", r" ++ toString rdhi
        ++ ", r" ++ toString rm ++ ", r" ++ toString rs))

/-- Embedding of `disassemble_swap`. -/
def disassemble_swap (instr : RawArmInstruction) : Except PyErr (Option String) :=
  if instr.get_bits 8 11 ≠ 0 ∨ instr.get_bits 20 21 ≠ 0 then
    .ok none
  else
    let b := instr.get_bit 22
    let rn := instr.get_bits 16 19
    let rd := instr.get_bits 12 15
    let rm := instr.get_bits 0 3
    match get_cond instr with
    | .error e => .error e
    | .ok cond =>
      .ok (some ("SWP" ++ (if b ≠ 0 then "B" else "") ++ cond ++ " r" ++ toString rd
        ++ ", r" ++ toString rm ++ ", [r" ++ toString rn ++ "]"))

/-- Embedding of `disassemble_move_from_or_to_status_reg`. -/
def disassemble_move_from_or_to_status_reg (instr : RawArmInstruction) :
    Except PyErr (Option String) :=
  let r := instr.get_bit 22
  if instr.get_bit 21 = 0 then
    if instr.get_bits 0 11 ≠ 0 ∨ instr.get_bits 16 19 ≠ 0xF then
      .ok none
    else
      let rd := instr.get_bits 12 15
      match get_cond instr with
      | .error e => .error e
      | .ok cond =>
        .ok (some ("MRS" ++ cond ++ " r" ++ toString rd ++ ", "
          ++ (if r ≠ 0 then "SPSR" else "CPSR")))
  else
    if instr.get_bits 12 15 ≠ 0xF then
      .ok none
    else
      let i := instr.get_bit 25
      let field_mask := instr.get_bits 16 19
      if field_mask = 0 then
        .ok none
      else
        let fields :=
          (if field_mask &&& 0b1000 ≠ 0 then "f" else "")
          ++ (if field_mask &&& 0b0100 ≠ 0 then "s" else "")
          ++ (if field_mask &&& 0b0010 ≠ 0 then "x" else "")
          ++ (if field_mask &&& 0b0001 ≠ 0 then "c" else "")
        if i ≠ 0 then
          if instr.get_bits 4 11 ≠ 0 then
            .ok none
          else
            let rot := instr.get_bits 8 11 * 2
            let imm := instr.get_bits 0 7
            let rotated_imm := ((imm >>> rot) ||| (imm <<< (32 - rot))) &&& 0xFFFFFFFF
            match get_cond instr with
            | .error e => .error e
            | .ok cond =>
              .ok (some ("MSR" ++ cond ++ " " ++ (if r ≠ 0 then "SPSR" else "CPSR")
                ++ "_" ++ fields ++ ", #0x" ++ pyHex rotated_imm))
        else
          let rm := instr.get_bits 0 3
          match get_cond instr with
          | .error e => .error e
          | .ok cond =>
            .ok (some ("MSR" ++ cond ++ " " ++ (if r ≠ 0 then "SPSR" else "CPSR")
              ++ "_" ++ fields ++ ", r" ++ toString rm))

/-- Embedding of `disassemble_load_or_store_halfword_or_signed_byte`. -/
def disassemble_load_or_store_halfword_or_signed_byte (instr : RawArmInstruction) :
    Except PyErr (Option String) :=
  let l := instr.get_bit 20
  let s := instr.get_bit 6
  let h := instr.get_bit 5
  let rd := instr.get_bits 12 15
  match format_addressing_mode3 instr with
  | .error e => .error e
  | .ok addressing_mode =>
    if (s = 0 ∧ h = 0) ∨ addressing_mode = none ∨ addressing_mode = some "" then
      .ok none
    else
      if l ≠ 0 then
        match ["", "H", "SB", "SH"].get? ((s <<< 1) ||| h) with
        | none => .error .indexError
        | some sfx =>
          match get_cond instr with
          | .error e => .error e
          | .ok cond =>
            .ok (some ("LDR" ++ sfx ++ cond ++ " r" ++ toString rd ++ ", "
              ++ pyStr addressing_mode))
      else
        if instr.get_bits 5 6 ≠ 1 then
          .ok none
        else
          match get_cond instr with
          | .error e => .error e
          | .ok cond =>
            .ok (some ("STRH" ++ cond ++ " r" ++ toString rd ++ ", "
              ++ pyStr addressing_mode))

/-- Embedding of `disassemble_data_processing`. -/
def disassemble_data_processing (instr : RawArmInstruction) : Except PyErr (Option String) :=
  let OPCODES := ["AND", "EOR", "SUB", "RSB", "ADD", "ADC", "SBC", "RSC",
                  "TST", "TEQ", "CMP", "CMN", "ORR", "MOV", "BIC", "MVN"]
  let s := instr.get_bit 20
  let opcode := instr.get_bits 21 24
  match OPCODES.get? opcode with
  | none => .error .indexError
  | some mnem =>
    let rn := instr.get_bits 16 19
    let rd := instr.get_bits 12 15
    match format_addressing_mode1 instr with
    | .error e => .error e
    | .ok op2 =>
      match op2 with
      | none => .ok none
      | some op2 =>
        if op2 = "" then .ok none
        else
          if mnem = "MOV" ∨ mnem = "MVN" then
            match get_cond instr with
            | .error e => .error e
            | .ok cond =>
              .ok (some (mnem ++ (if s ≠ 0 then "S" else "") ++ cond
                ++ " r" ++ toString rd ++ ", " ++ op2))
          else if mnem = "TST" ∨ mnem = "TEQ" ∨ mnem = "CMP" ∨ mnem = "CMN" then
            match get_cond instr with
            | .error e => .error e
            | .ok cond =>
              .ok (some (mnem ++ cond ++ " r" ++ toString rn ++ ", " ++ op2))
          else
            match get_cond instr with
            | .error e => .error e
            | .ok cond =>
              .ok (some (mnem ++ (if s ≠ 0 then "S" else "") ++ cond
                ++ " r" ++ toString rd ++ ", r" ++ toString rn ++ ", " ++ op2))

/-- Names of the fourteen ARM class decoders, in the order of `PATTERNS`. -/
inductive ArmDecoder
  | software_interrupt
  | branch_exchange
  | branch_and_branch_with_link
  | coprocessor_register_transfer
  | coprocessor_data_processing
  | coprocessor_load_and_store
  | load_or_store_multiple
  | load_or_store
  | multiply
  | multiply_long
  | swap
  | move_from_or_to_status_reg
  | load_or_store_halfword_or_signed_byte
  | data_processing
  deriving DecidableEq

/-- The pattern table of `get_decoder`: `(mask, expected_value, decoder)` triples
in source order. -/
def PATTERNS : List (Nat × Nat × ArmDecoder) :=
  [(0x0F000000, 0x0F000000, .software_interrupt),
   (0x0FFFFFF0, 0x012FFF10, .branch_exchange),
   (0x0E000000, 0x0A000000, .branch_and_branch_with_link),
   (0x0F000010, 0x0E000010, .coprocessor_register_transfer),
   (0x0F000010, 0x0E000000, .coprocessor_data_processing),
   (0x0E000000, 0x0C000000, .coprocessor_load_and_store),
   (0x0E000000, 0x08000000, .load_or_store_multiple),
   (0x0C000000, 0x04000000, .load_or_store),
   (0x0FC000F0, 0x00000090, .multiply),
   (0x0F8000F0, 0x00800090, .multiply_long),
   (0x0FB000F0, 0x01000090, .swap),
   (0x0D900000, 0x01000000, .move_from_or_to_status_reg),
   (0x0E000090, 0x00000090, .load_or_store_halfword_or_signed_byte),
   (0x0C000000, 0x00000000, .data_processing)]

/-- The scan loop of `get_decoder`: the first entry with
`value & mask == expected_value` wins; `None` if no entry matches. -/
def findPattern {α : Type} : List (Nat × Nat × α) → Nat → Option α
  | [], _ => none
  | (mask, expected_value, decoder) :: rest, v =>
    if v &&& mask = expected_value then some decoder else findPattern rest v

/-- Embedding of `get_decoder`. -/
def get_decoder (instr : RawArmInstruction) : Option ArmDecoder :=
  findPattern PATTERNS instr.value

/-- Dispatch from a decoder name to the embedded decoder function. -/
def run_decoder : ArmDecoder → RawArmInstruction → Except PyErr (Option String)
  | .software_interrupt => disassemble_software_interrupt
  | .branch_exchange => disassemble_branch_exchange
  | .branch_and_branch_with_link => disassemble_branch_and_branch_with_link
  | .coprocessor_register_transfer => disassemble_coprocessor_register_transfer
  | .coprocessor_data_processing => disassemble_coprocessor_data_processing
  | .coprocessor_load_and_store => disassemble_coprocessor_load_and_store
  | .load_or_store_multiple => disassemble_load_or_store_multiple
  | .load_or_store => disassemble_load_or_store
  | .multiply => disassemble_multiply
  | .multiply_long => disassemble_multiply_long
  | .swap => disassemble_swap
  | .move_from_or_to_status_reg => disassemble_move_from_or_to_status_reg
  | .load_or_store_halfword_or_signed_byte => disassemble_load_or_store_halfword_or_signed_byte
  | .data_processing => disassemble_data_processing

/-- Embedding of `Armv4TDisassembler.disassemble`.  When the selected decoder
rejects the word the Python variable `result` holds `None`; the final
`return result.lower() if lowerCaseOutput else result` then either returns
`None` unchanged (embedded as `.ok none`) or raises `AttributeError` on
`None.lower()`. -/
def disassemble (instr : RawArmInstruction) (lowerCaseOutput : Bool) :
    Except PyErr (Option String) :=
  match get_decoder instr with
  | none =>
    let result := "UNKNOWN"
    if lowerCaseOutput then .ok (some result.toLower) else .ok (some result)
  | some decoder =>
    match run_decoder decoder instr with
    | .error e => .error e
    | .ok result =>
      if lowerCaseOutput then
        match result with
        | none => .error .attributeError
        | some s => .ok (some s.toLower)
      else
        .ok result

end Armv4TDisassembler

/-- Embedding of `class RawThumbInstruction`: a boxed 16-bit instruction word. -/
structure RawThumbInstruction where
  value : Nat
  deriving DecidableEq

namespace RawThumbInstruction

/-- The constructor masks the supplied value to 16 bits:
`self.value = value & 0xFFFF`. -/
def init (value : Nat) : RawThumbInstruction :=
  ⟨value &&& 0xFFFF⟩

/-- `get_bit(self, n): return (self.value >> n) & 1` -/
def get_bit (self : RawThumbInstruction) (n : Nat) : Nat :=
  (self.value >>> n) &&& 1

/-- `get_bits(self, start, end)` returns the inclusive bit range. -/
def get_bits (self : RawThumbInstruction) (start stop : Nat) : Nat :=
  (self.value >>> start) &&& ((1 <<< (stop - start + 1)) - 1)

end RawThumbInstruction

namespace Thumb1Disassembler

open RawThumbInstruction

/-- Embedding of `disassemble_add_or_sub_reg`. -/
def disassemble_add_or_sub_reg (instr : RawThumbInstruction) : Except PyErr (Option String) :=
  let i := instr.get_bit 10
  let op := instr.get_bit 9
  let rm_imm := instr.get_bits 6 8
  let rn := instr.get_bits 3 5
  let rd := instr.get_bits 0 2
  if i ≠ 0 then
    .ok (some ((if op ≠ 0 then "SUB" else "ADD") ++ "S r" ++ toString rd
      ++ ", r" ++ toString rn ++ ", #" ++ toString rm_imm))
  else
    .ok (some ((if op ≠ 0 then "SUB" else "ADD") ++ "S r" ++ toString rd
      ++ ", r" ++ toString rn ++ ", r" ++ toString rm_imm))

/-- Embedding of `disassemble_shift_by_imm`.  The mnemonic table has only three
entries, so `opcode == 3` would raise `IndexError`. -/
def disassemble_shift_by_imm (instr : RawThumbInstruction) : Except PyErr (Option String) :=
  let opcode := instr.get_bits 11 12
  match ["LSL", "LSR", "ASR"].get? opcode with
  | none => .error .indexError
  | some mnem =>
    let imm := instr.get_bits 6 10
    let rm := instr.get_bits 3 5
    let rd := instr.get_bits 0 2
    .ok (some (mnem ++ "S r" ++ toString rd ++ ", r" ++ toString rm ++ ", #" ++ toString imm))

/-- Embedding of `disassemble_add_or_sub_or_cmp_or_mov_imm`. -/
def disassemble_add_or_sub_or_cmp_or_mov_imm (instr : RawThumbInstruction) :
    Except PyErr (Option String) :=
  let opcode := instr.get_bits 11 12
  match ["MOVS", "CMP", "ADDS", "SUBS"].get? opcode with
  | none => .error .indexError
  | some mnem =>
    let rd_rn := instr.get_bits 8 10
    let imm := instr.get_bits 0 7
    .ok (some (mnem ++ " r" ++ toString rd_rn ++ ", #0x" ++ pyHex imm))

/-- Embedding of `disassemble_dp_reg`. -/
def disassemble_dp_reg (instr : RawThumbInstruction) : Except PyErr (Option String) :=
  let OPCODES := ["ANDS", "EORS", "LSLS", "LSRS", "ASRS", "ADCS", "SBCS", "RORS",
                  "TST", "NEGS", "CMP", "CMN", "ORRS", "MULS", "BICS", "MVNS"]
  let op := instr.get_bits 6 9
  match OPCODES.get? op with
  | none => .error .indexError
  | some mnem =>
    let rm_rs := instr.get_bits 3 5
    let rd_rn := instr.get_bits 0 2
    .ok (some (mnem ++ " r" ++ toString rd_rn ++ ", r" ++ toString rm_rs))

/-- Embedding of `disassemble_special_dp`. -/
def disassemble_special_dp (instr : RawThumbInstruction) : Except PyErr (Option String) :=
  let opcode := instr.get_bits 8 9
  match ["ADD", "CMP", "MOV", "BX"].get? opcode with
  | none => .error .indexError
  | some mnem =>
    let h1 := instr.get_bit 7
    let h2 := instr.get_bit 6
    let rm := instr.get_bits 3 5
    let rd_rn := instr.get_bits 0 2
    if mnem = "BX" then
      if h1 ≠ 0 ∨ rd_rn ≠ 0 then
        .ok none
      else
        .ok (some ("BX r" ++ toString (if h2 ≠ 0 then rm + 8 else rm)))
    else
      .ok (some (mnem ++ " r" ++ toString (if h1 ≠ 0 then rd_rn + 8 else rd_rn)
        ++ ", r" ++ toString (if h2 ≠ 0 then rm + 8 else rm)))

/-- Embedding of `disassemble_load_from_literal_pool`. -/
def disassemble_load_from_literal_pool (instr : RawThumbInstruction) :
    Except PyErr (Option String) :=
  let rd := instr.get_bits 8 10
  let offset := instr.get_bits 0 7 * 4
  .ok (some ("LDR r" ++ toString rd ++ ", [r15, #0x" ++ pyHex offset ++ "]"))

/-- Embedding of `disassemble_load_or_store_reg_offset`. -/
def disassemble_load_or_store_reg_offset (instr : RawThumbInstruction) :
    Except PyErr (Option String) :=
  let opcode := instr.get_bits 9 11
  match ["STR", "STRH", "STRB", "LDRSB", "LDR", "LDRH", "LDRB", "LDRSH"].get? opcode with
  | none => .error .indexError
  | some mnem =>
    let rm := instr.get_bits 6 8
    let rn := instr.get_bits 3 5
    let rd := instr.get_bits 0 2
    .ok (some (mnem ++ " r" ++ toString rd ++ ", [r" ++ toString rn
      ++ ", r" ++ toString rm ++ "]"))

/-- Embedding of `disassemble_load_or_store_word_or_byte_imm_offset`. -/
def disassemble_load_or_store_word_or_byte_imm_offset (instr : RawThumbInstruction) :
    Except PyErr (Option String) :=
  let b := instr.get_bit 12
  let l := instr.get_bit 11
  let imm := instr.get_bits 6 10 * (if b ≠ 0 then 1 else 4)
  let rn := instr.get_bits 3 5
  let rd := instr.get_bits 0 2
  .ok (some ((if l ≠ 0 then "LDR" else "STR") ++ (if b ≠ 0 then "B" else "")
    ++ " r" ++ toString rd ++ ", [r" ++ toString rn ++ ", #0x" ++ pyHex imm ++ "]"))

/-- Embedding of `disassemble_load_or_store_halfword_imm_offset`. -/
def disassemble_load_or_store_halfword_imm_offset (instr : RawThumbInstruction) :
    Except PyErr (Option String) :=
  let l := instr.get_bit 11
  let imm := instr.get_bits 6 10 * 2
  let rn := instr.get_bits 3 5
  let rd := instr.get_bits 0 2
  .ok (some ((if l ≠ 0 then "LDR" else "STR") ++ "H r" ++ toString rd
    ++ ", [r" ++ toString rn ++ ", #0x" ++ pyHex imm ++ "]"))

/-- Embedding of `disassemble_load_or_store_to_or_from_stack`. -/
def disassemble_load_or_store_to_or_from_stack (instr : RawThumbInstruction) :
    Except PyErr (Option String) :=
  let l := instr.get_bit 11
  let rd := instr.get_bits 8 10
  let offset := instr.get_bits 0 7 * 4
  .ok (some ((if l ≠ 0 then "LDR" else "STR") ++ " r" ++ toString rd
    ++ ", [r13, #0x" ++ pyHex offset ++ "]"))

/-- Embedding of `disassemble_add_to_sp_or_pc`. -/
def disassemble_add_to_sp_or_pc (instr : RawThumbInstruction) :
    Except PyErr (Option String) :=
  let sp := instr.get_bit 11
  let rd := instr.get_bits 8 10
  let imm := instr.get_bits 0 7 * 4
  .ok (some ("ADD r" ++ toString rd ++ ", " ++ (if sp ≠ 0 then "r13" else "r15")
    ++ ", #0x" ++ pyHex imm))

/-- Embedding of `disassemble_adjust_sp`. -/
def disassemble_adjust_sp (instr : RawThumbInstruction) : Except PyErr (Option String) :=
  let op := instr.get_bit 7
  let imm := instr.get_bits 0 6 * 4
  .ok (some ((if op ≠ 0 then "SUB" else "ADD") ++ " r13, #0x" ++ pyHex imm))

/-- Embedding of `disassemble_push_or_pop_reg_list`. -/
def disassemble_push_or_pop_reg_list (instr : RawThumbInstruction) :
    Except PyErr (Option String) :=
  let l := instr.get_bit 11
  let r := instr.get_bit 8
  let reg_list := instr.get_bits 0 7
  if r = 0 ∧ reg_list = 0 then
    .ok none
  else
    let registers := (List.range 8).filterMap
      (fun i => if reg_list &&& (1 <<< i) ≠ 0 then some ("r" ++ toString i) else none)
    let registers := if r ≠ 0 then registers ++ [if l ≠ 0 then "r15" else "r14"] else registers
    .ok (some ((if l ≠ 0 then "POP" else "PUSH") ++ " \x7b"
      ++ String.intercalate ", " registers ++ "\x7d"))

/-- Embedding of `disassemble_load_or_store_multiple`. -/
def disassemble_load_or_store_multiple (instr : RawThumbInstruction) :
    Except PyErr (Option String) :=
  let l := instr.get_bit 11
  let rn := instr.get_bits 8 10
  let reg_list := instr.get_bits 0 7
  if reg_list = 0 then
    .ok none
  else
    let registers := (List.range 8).filterMap
      (fun i => if reg_list &&& (1 <<< i) ≠ 0 then some ("r" ++ toString i) else none)
    .ok (some ((if l ≠ 0 then "LDM" else "STM") ++ "IA r" ++ toString rn ++ "!, \x7b"
      ++ String.intercalate ", " registers ++ "\x7d"))

/-- The local table `CONDITION_CODES` defined inside
`disassemble_conditional_branch` (looked up directly, not through `self`). -/
def CONDITION_CODES : List String :=
  ["EQ", "NE", "CS", "CC", "MI", "PL", "VS", "VC",
   "HI", "LS", "GE", "LT", "GT", "LE", "AL", "NV"]

/-- Embedding of `disassemble_conditional_branch`.  The Python `imm` can become
negative after `imm |= ~((1 << 9) - 1)`, so it is carried as an `Int`. -/
def disassemble_conditional_branch (instr : RawThumbInstruction) :
    Except PyErr (Option String) :=
  match CONDITION_CODES.get? (instr.get_bits 8 11) with
  | none => .error .indexError
  | some cond_code =>
    let cond := if cond_code = "AL" then "" else cond_code
    let imm := instr.get_bits 0 7 <<< 1
    let immI : Int :=
      if imm &&& (1 <<< 8) ≠ 0 then
        pyIntOr (imm : Int) (pyIntNot (((1 <<< 9) - 1 : Nat) : Int))
      else
        (imm : Int)
    let immI := pyIntAnd (immI + 4) ((0xFFFFFFFF : Nat) : Int)
    .ok (some ("B" ++ cond ++ " #0x" ++ pyHexInt immI))

/-- Embedding of `disassemble_software_interrupt`. -/
def disassemble_software_interrupt (instr : RawThumbInstruction) :
    Except PyErr (Option String) :=
  let imm := instr.get_bits 0 7
  .ok (some ("SWI 0x" ++ pyHex imm))

/-- Embedding of `disassemble_unconditional_branch`. -/
def disassemble_unconditional_branch (instr : RawThumbInstruction) :
    Except PyErr (Option String) :=
  let imm := instr.get_bits 0 10 <<< 1
  let immI : Int :=
    if imm &&& (1 <<< 11) ≠ 0 then
      pyIntOr (imm : Int) (pyIntNot (((1 <<< 12) - 1 : Nat) : Int))
    else
      (imm : Int)
  let immI := pyIntAnd (immI + 4) ((0xFFFFFFFF : Nat) : Int)
  .ok (some ("B 0x" ++ pyHexInt immI))

/-- Names of the seventeen Thumb class decoders, in the order of `PATTERNS`. -/
inductive ThumbDecoder
  | add_or_sub_reg
  | shift_by_imm
  | add_or_sub_or_cmp_or_mov_imm
  | dp_reg
  | special_dp
  | load_from_literal_pool
  | load_or_store_reg_offset
  | load_or_store_word_or_byte_imm_offset
  | load_or_store_halfword_imm_offset
  | load_or_store_to_or_from_stack
  | add_to_sp_or_pc
  | adjust_sp
  | push_or_pop_reg_list
  | load_or_store_multiple
  | conditional_branch
  | software_interrupt
  | unconditional_branch
  deriving DecidableEq

/-- The Thumb pattern table, in source order.  The long-branch `BL`
prefix/suffix rows are commented out in the source and therefore absent. -/
def PATTERNS : List (Nat × Nat × ThumbDecoder) :=
  [(0xF800, 0x1800, .add_or_sub_reg),
   (0xE000, 0x0000, .shift_by_imm),
   (0xE000, 0x2000, .add_or_sub_or_cmp_or_mov_imm),
   (0xFC00, 0x4000, .dp_reg),
   (0xFC00, 0x4400, .special_dp),
   (0xF800, 0x4800, .load_from_literal_pool),
   (0xF000, 0x5000, .load_or_store_reg_offset),
   (0xE000, 0x6000, .load_or_store_word_or_byte_imm_offset),
   (0xF000, 0x8000, .load_or_store_halfword_imm_offset),
   (0xF000, 0x9000, .load_or_store_to_or_from_stack),
   (0xF000, 0xA000, .add_to_sp_or_pc),
   (0xFF00, 0xB000, .adjust_sp),
   (0xF600, 0xB400, .push_or_pop_reg_list),
   (0xF000, 0xC000, .load_or_store_multiple),
   (0xF000, 0xD000, .conditional_branch),
   (0xFF00, 0xDF00, .software_interrupt),
   (0xF800, 0xE000, .unconditional_branch)]

/-- Embedding of the Thumb `get_decoder`: first matching pattern wins. -/
def get_decoder (instr : RawThumbInstruction) : Option ThumbDecoder :=
  Armv4TDisassembler.findPattern PATTERNS instr.value

/-- Dispatch from a decoder name to the embedded decoder function. -/
def run_decoder : ThumbDecoder → RawThumbInstruction → Except PyErr (Option String)
  | .add_or_sub_reg => disassemble_add_or_sub_reg
  | .shift_by_imm => disassemble_shift_by_imm
  | .add_or_sub_or_cmp_or_mov_imm => disassemble_add_or_sub_or_cmp_or_mov_imm
  | .dp_reg => disassemble_dp_reg
  | .special_dp => disassemble_special_dp
  | .load_from_literal_pool => disassemble_load_from_literal_pool
  | .load_or_store_reg_offset => disassemble_load_or_store_reg_offset
  | .load_or_store_word_or_byte_imm_offset => disassemble_load_or_store_word_or_byte_imm_offset
  | .load_or_store_halfword_imm_offset => disassemble_load_or_store_halfword_imm_offset
  | .load_or_store_to_or_from_stack => disassemble_load_or_store_to_or_from_stack
  | .add_to_sp_or_pc => disassemble_add_to_sp_or_pc
  | .adjust_sp => disassemble_adjust_sp
  | .push_or_pop_reg_list => disassemble_push_or_pop_reg_list
  | .load_or_store_multiple => disassemble_load_or_store_multiple
  | .conditional_branch => disassemble_conditional_branch
  | .software_interrupt => disassemble_software_interrupt
  | .unconditional_branch => disassemble_unconditional_branch

/-- Embedding of `Thumb1Disassembler.disassemble`:
`return (decoder(instr) if decoder else None) or 'UNKNOWN'`.
The Python `or` replaces both `None` and the empty string by `'UNKNOWN'`. -/
def disassemble (instr : RawThumbInstruction) : Except PyErr String :=
  match get_decoder instr with
  | none => .ok "UNKNOWN"
  | some decoder =>
    match run_decoder decoder instr with
    | .error e => .error e
    | .ok none => .ok "UNKNOWN"
    | .ok (some s) => .ok (if s = "" then "UNKNOWN" else s)

end Thumb1Disassembler

/-! ### Arithmetic helper lemmas about masks, shifts and the two's-complement
integer operations used by the embedded code. -/

/-- If the bits of `b` are contained in the bits of `a` (`a &&& b = b`), then a
known value of `w &&& a` determines `w &&& b`. -/
lemma mask_subsume {w a c : Nat} (b : Nat) (h : w &&& a = c) (hb : a &&& b = b) :
    w &&& b = c &&& b := by
  calc w &&& b = w &&& (a &&& b) := by rw [hb]
    _ = (w &&& a) &&& b := by rw [Nat.and_assoc]
    _ = c &&& b := by rw [h]

/-- Masking with a shifted mask, in terms of a shift followed by a mask. -/
lemma and_shift_mask (x m k : Nat) : x &&& (m <<< k) = ((x >>> k) &&& m) <<< k := by
  apply Nat.eq_of_testBit_eq
  intro i
  simp only [Nat.testBit_and, Nat.testBit_shiftLeft, Nat.testBit_shiftRight]
  by_cases h : k ≤ i
  · simp [h, Nat.add_sub_cancel' h, Bool.and_left_comm]
  · simp [h]

/-- A mask test against a single bit, as a divide-and-mod bit test. -/
lemma and_two_pow_ne_zero_iff (x k : Nat) : x &&& 2 ^ k ≠ 0 ↔ x / 2 ^ k % 2 = 1 := by
  rw [Nat.and_two_pow, Nat.testBit_to_div_mod]
  have h2 : (2 : Nat) ^ k ≠ 0 := (Nat.two_pow_pos k).ne'
  by_cases h : x / 2 ^ k % 2 = 1
  · simp [h, h2]
  · simp [h]

/-- Xor with a low-bits mask is subtraction from the mask. -/
lemma xor_two_pow_sub_one {k m : Nat} (h : m < 2 ^ k) :
    (2 ^ k - 1) ^^^ m = 2 ^ k - 1 - m := by
  have h1 : 2 ^ k - 1 - m = 2 ^ k - (m + 1) := by omega
  rw [h1]
  apply Nat.eq_of_testBit_eq
  intro i
  rw [Nat.testBit_xor, Nat.testBit_two_pow_sub_one, Nat.testBit_two_pow_sub_succ h]
  by_cases hik : i < k
  · simp [hik]
  · have hm : m < 2 ^ i :=
      lt_of_lt_of_le h (Nat.pow_le_pow_right (by norm_num) (le_of_not_lt hik))
    simp [hik, Nat.testBit_lt_two_pow hm]

/-- `natDiff` against a low-bits mask is subtraction from the mask. -/
lemma natDiff_two_pow_sub_one {k m : Nat} (h : m < 2 ^ k) :
    natDiff (2 ^ k - 1) m = 2 ^ k - 1 - m := by
  unfold natDiff
  rw [Nat.and_comm, Nat.and_pow_two_sub_one_eq_mod, Nat.mod_eq_of_lt h,
    xor_two_pow_sub_one h]

/-- Python `m | ~(2^k - 1)` on a `k`-bit nonnegative value subtracts `2^k`. -/
lemma pyIntOr_not_mask {k m : Nat} (h : m < 2 ^ k) :
    pyIntOr (m : Int) (pyIntNot ((2 ^ k - 1 : Nat) : Int)) =
      (m : Int) - ((2 ^ k : Nat) : Int) := by
  rw [show pyIntNot ((2 ^ k - 1 : Nat) : Int) = Int.negSucc (2 ^ k - 1) from rfl]
  rw [show pyIntOr (m : Int) (Int.negSucc (2 ^ k - 1)) =
    Int.negSucc (natDiff (2 ^ k - 1) m) from rfl]
  rw [natDiff_two_pow_sub_one h, Int.negSucc_eq]
  omega

/-- Python `x & (2^k - 1)` on a negative value `-(n+1)` with `n < 2^k`. -/
lemma pyIntAnd_negSucc_mask {k n : Nat} (h : n < 2 ^ k) :
    pyIntAnd (Int.negSucc n) ((2 ^ k - 1 : Nat) : Int) = ((2 ^ k - 1 - n : Nat) : Int) := by
  rw [show pyIntAnd (Int.negSucc n) ((2 ^ k - 1 : Nat) : Int) =
    ((natDiff (2 ^ k - 1) n : Nat) : Int) from rfl]
  rw [natDiff_two_pow_sub_one h]

/-- Python `&` of two nonnegative values is the `Nat` bitwise and. -/
lemma pyIntAnd_ofNat (a b : Nat) : pyIntAnd (a : Int) (b : Int) = ((a &&& b : Nat) : Int) :=
  rfl

/-! ### Lemmas about the first-match pattern scan. -/

namespace Armv4TDisassembler

/-- One scan step of `findPattern`. -/
lemma findPattern_cons {α : Type} (m e : Nat) (dec : α) (rest : List (Nat × Nat × α))
    (v : Nat) :
    findPattern ((m, e, dec) :: rest) v =
      if v &&& m = e then some dec else findPattern rest v := rfl

/-- A successful pattern scan only returns a decoder listed in the table. -/
lemma findPattern_mem {α : Type} :
    ∀ (l : List (Nat × Nat × α)) (v : Nat) (d : α),
      findPattern l v = some d → d ∈ l.map (fun p => p.2.2) := by
  intro l
  induction l with
  | nil => intro v d h; simp [findPattern] at h
  | cons p rest ih =>
    rcases p with ⟨m, e, dec⟩
    intro v d h
    rw [findPattern_cons] at h
    by_cases c : v &&& m = e
    · rw [if_pos c] at h
      simp only [Option.some.injEq] at h
      simp [h]
    · rw [if_neg c] at h
      simp [ih v d h]

end Armv4TDisassembler

/-! ### Bounds on extracted bit fields and list lookups. -/

/-- Every Thumb bit-range extraction is bounded by its width. -/
lemma RawThumbInstruction.thumb_get_bits_lt (i : RawThumbInstruction) (lo hi : Nat) :
    i.get_bits lo hi < 1 <<< (hi - lo + 1) := by
  unfold RawThumbInstruction.get_bits
  have h1 := Nat.and_le_right (n := i.value >>> lo) (m := (1 <<< (hi - lo + 1)) - 1)
  have hp : 0 < 1 <<< (hi - lo + 1) := by
    rw [Nat.one_shiftLeft]; exact Nat.two_pow_pos _
  omega

/-- Every ARM bit-range extraction is bounded by its width. -/
lemma RawArmInstruction.arm_get_bits_lt (i : RawArmInstruction) (lo hi : Nat) :
    i.get_bits lo hi < 1 <<< (hi - lo + 1) := by
  unfold RawArmInstruction.get_bits
  have h1 := Nat.and_le_right (n := i.value >>> lo) (m := (1 <<< (hi - lo + 1)) - 1)
  have hp : 0 < 1 <<< (hi - lo + 1) := by
    rw [Nat.one_shiftLeft]; exact Nat.two_pow_pos _
  omega

/-- Every ARM single-bit extraction is zero or one. -/
lemma RawArmInstruction.arm_get_bit_le (i : RawArmInstruction) (n : Nat) :
    i.get_bit n ≤ 1 :=
  Nat.and_le_right

/-- Every Thumb single-bit extraction is zero or one. -/
lemma RawThumbInstruction.thumb_get_bit_le (i : RawThumbInstruction) (n : Nat) :
    i.get_bit n ≤ 1 :=
  Nat.and_le_right

/-- In-range list lookups succeed. -/
lemma get?_of_lt {α : Type} (l : List α) (n : Nat) (h : n < l.length) :
    ∃ a, l.get? n = some a :=
  ⟨l.get ⟨n, h⟩, List.get?_eq_get h⟩

/-! ### Claim C1: rejection by the first matching decoder. -/

namespace Armv4TDisassembler

/-- **C1.**  The claim says that a word whose first matching pattern entry
selects a rejecting decoder makes `disassemble` return the sentinel
`"UNKNOWN"`, exactly as when no entry matches.  The code does not do this: on
rejection the Python variable `result` is `None`, and `disassemble` returns
`None` itself (embedded `.ok none`), or raises `AttributeError` on
`None.lower()` when lower-case output is requested.  Witnessed by 0xE8000000,
which is dispatched to the load/store-multiple decoder and rejected there
because its register list is empty. -/
theorem C1_rejection_is_not_UNKNOWN :
    get_decoder (RawArmInstruction.init 0xE8000000) = some .load_or_store_multiple ∧
    run_decoder .load_or_store_multiple (RawArmInstruction.init 0xE8000000) = .ok none ∧
    disassemble (RawArmInstruction.init 0xE8000000) false = .ok none ∧
    disassemble (RawArmInstruction.init 0xE8000000) true = .error .attributeError :=
  ⟨rfl, rfl, rfl, rfl⟩

/-- **C2.**  The claim says `disassemble` returns a string for every 32-bit
word.  It does not: every decoder that reaches the condition lookup raises
`AttributeError`, because `get_cond` reads `self.CONDITION_CODES` and the class
never defines that attribute (the table is a local variable).  Witnessed by the
software interrupt word 0xEF000000; moreover the condition lookup fails on
every instruction whatsoever. -/
theorem C2_disassemble_raises :
    (∀ instr : RawArmInstruction, get_cond instr = .error .attributeError) ∧
    disassemble (RawArmInstruction.init 0xEF000000) false = .error .attributeError :=
  ⟨fun _ => rfl, rfl⟩

/-- **C3 (counterexample).**  The claim says decoding 0x012FFF1E yields exactly
`"BX r14"`.  It does not: the decode aborts in the condition lookup. -/
theorem C3_cex :
    disassemble (RawArmInstruction.init 0x012FFF1E) false ≠ .ok (some "BX r14") := by
  simp [show disassemble (RawArmInstruction.init 0x012FFF1E) false =
    .error .attributeError from rfl]

/-- **C3 (amended).**  Decoding the ARM word 0x012FFF1E with default (upper)
case does not yield text at all: the word is dispatched to the branch-exchange
decoder, which fails with `AttributeError` in the condition-code lookup
(`self.CONDITION_CODES` does not exist).  Had the lookup used the local table,
the output would be `"BXEQ r14"` since bits 28-31 of this word are 0 (`EQ`),
not the `AL` condition of the spec fixture. -/
theorem C3_amended :
    get_decoder (RawArmInstruction.init 0x012FFF1E) = some .branch_exchange ∧
    disassemble (RawArmInstruction.init 0x012FFF1E) false = .error .attributeError :=
  ⟨rfl, rfl⟩

/-- **C5.**  The claim says that in register-operand form (bit 25 clear) with
bit 4 set, Mode 1 always rejects when bit 7 is set and otherwise always prints
the shift register after the shift mnemonic (e.g. `"r0, LSL r0"`), never the
bare-register or immediate-shift shortcuts.  The code instead tests the
`LSL #0` / `ROR #0` shortcuts before looking at bit 4, so a register-specified
shift whose Rs is r0 (bits 7-11 all zero) takes the shortcut: word 0x00000010
(`..., LSL r0`) prints the bare register `"r0"`, and word 0x00000070
(`..., ROR r0`) prints `"r0, RRX"`.  The rejection of bit 7 and the ordinary
register-shift text (witnessed at 0x00000110, Rs = r1) do work as claimed. -/
theorem C5_register_shift_shortcut :
    format_addressing_mode1 (RawArmInstruction.init 0x00000010) = .ok (some "r0") ∧
    format_addressing_mode1 (RawArmInstruction.init 0x00000070) = .ok (some "r0, RRX") ∧
    format_addressing_mode1 (RawArmInstruction.init 0x00000090) = .ok none ∧
    format_addressing_mode1 (RawArmInstruction.init 0x00000110) = .ok (some "r0, LSL r1") :=
  ⟨rfl, rfl, rfl, rfl⟩

/-- **C7.**  Every word with `w & 0x0FFFFFF0 == 0x012FFF10` is dispatched to
the branch-exchange decoder and to no other, although the word also passes the
mask tests of the later move-status-register (`& 0x0D900000 == 0x01000000`) and
data-processing (`& 0x0C000000 == 0x00000000`) entries; the scan returns the
single first match. -/
theorem C7_priority_branch_exchange (w : Nat) (h : w &&& 0x0FFFFFF0 = 0x012FFF10) :
    get_decoder (RawArmInstruction.init w) = some .branch_exchange ∧
    w &&& 0x0D900000 = 0x01000000 ∧ w &&& 0x0C000000 = 0x00000000 := by
  have hv : (w &&& 0xFFFFFFFF) &&& 0x0FFFFFF0 = 0x012FFF10 := by
    rw [Nat.and_assoc, show ((0xFFFFFFFF : Nat) &&& 0x0FFFFFF0) = 0x0FFFFFF0 from rfl, h]
  have h1 : (w &&& 0xFFFFFFFF) &&& 0x0F000000 = 0x01000000 := by
    have h2 := mask_subsume 0x0F000000 hv (by decide)
    rw [h2]; decide
  refine ⟨?_, ?_, ?_⟩
  · show findPattern PATTERNS (RawArmInstruction.init w).value = some .branch_exchange
    rw [show (RawArmInstruction.init w).value = w &&& 0xFFFFFFFF from rfl]
    rw [PATTERNS, findPattern_cons, if_neg (by rw [h1]; decide), findPattern_cons,
      if_pos hv]
  · have h2 := mask_subsume 0x0D900000 h (by decide)
    rw [h2]; decide
  · have h2 := mask_subsume 0x0C000000 h (by decide)
    rw [h2]; decide

/-- Witness for C7 at the concrete word 0x012FFF1E. -/
theorem C7_priority_branch_exchange_witness :
    ((0x012FFF1E : Nat) &&& 0x0FFFFFF0 = 0x012FFF10) ∧
    (get_decoder (RawArmInstruction.init 0x012FFF1E) = some .branch_exchange ∧
     (0x012FFF1E : Nat) &&& 0x0D900000 = 0x01000000 ∧
     (0x012FFF1E : Nat) &&& 0x0C000000 = 0x00000000) :=
  ⟨by decide, C7_priority_branch_exchange 0x012FFF1E (by decide)⟩

/-- The load/store-multiple addressing-mode formatter never rejects and never
raises: its index `(p << 1) | u` is one of 0 to 3. -/
lemma mode4_ok (i : RawArmInstruction) : ∃ s, format_addressing_mode4 i = .ok (some s) := by
  unfold format_addressing_mode4
  have hp := i.arm_get_bit_le 24
  have hu := i.arm_get_bit_le 23
  rcases Nat.le_one_iff_eq_zero_or_eq_one.mp hp with h24 | h24 <;>
    rcases Nat.le_one_iff_eq_zero_or_eq_one.mp hu with h23 | h23 <;>
      rw [h24, h23] <;> exact ⟨_, rfl⟩

/-- When dispatch selects a decoder that returns a value, `disassemble` with
default (upper) case returns that value unchanged. -/
lemma disassemble_ok {i : RawArmInstruction} {d : ArmDecoder} {r : Option String}
    (h : get_decoder i = some d) (hr : run_decoder d i = .ok r) :
    disassemble i false = .ok r := by
  unfold disassemble
  simp only [h, hr, Bool.false_eq_true, if_false]

/-- When dispatch selects a decoder that raises, `disassemble` propagates the
exception. -/
lemma disassemble_err {i : RawArmInstruction} {d : ArmDecoder} {e : PyErr}
    (h : get_decoder i = some d) (hr : run_decoder d i = .error e) :
    disassemble i false = .error e := by
  unfold disassemble
  simp only [h, hr]

/-- When the rejection condition of the load/store-multiple decoder holds, the
decoder returns the `None` rejection. -/
lemma ldm_reject (i : RawArmInstruction) (am : String)
    (ham : format_addressing_mode4 i = .ok (some am))
    (hc : (i.get_bit 22 ≠ 0 ∧ i.get_bit 21 ≠ 0) ∨ i.get_bits 0 15 = 0 ∨
      i.get_bits 16 19 = 15) :
    disassemble_load_or_store_multiple i = .ok none := by
  simp only [disassemble_load_or_store_multiple, ham]
  rw [if_pos hc]

/-- When the rejection condition fails, the load/store-multiple decoder goes on
to the condition lookup and raises. -/
lemma ldm_error (i : RawArmInstruction) (am : String)
    (ham : format_addressing_mode4 i = .ok (some am))
    (hc : ¬((i.get_bit 22 ≠ 0 ∧ i.get_bit 21 ≠ 0) ∨ i.get_bits 0 15 = 0 ∨
      i.get_bits 16 19 = 15)) :
    disassemble_load_or_store_multiple i = .error .attributeError := by
  simp only [disassemble_load_or_store_multiple, ham]
  rw [if_neg hc]
  rfl

/-- **C6.**  For every word dispatched to the load/store-multiple decoder, the
decoder rejects (signals `None`, so that `disassemble` yields no mnemonic)
exactly when the register list (bits 0-15) is zero, or the base register
(bits 16-19) is 15, or both the user-mode flag (bit 22) and the write-back
flag (bit 21) are set.  (In the embedding, rejection surfaces as the `.ok none`
result of `disassemble`; non-rejected words go on to the condition lookup.) -/
theorem C6_ldm_reject_iff (w : Nat)
    (h : get_decoder (RawArmInstruction.init w) = some .load_or_store_multiple) :
    (disassemble (RawArmInstruction.init w) false = .ok none ↔
      ((RawArmInstruction.init w).get_bit 22 = 1 ∧ (RawArmInstruction.init w).get_bit 21 = 1) ∨
      (RawArmInstruction.init w).get_bits 0 15 = 0 ∨
      (RawArmInstruction.init w).get_bits 16 19 = 15) := by
  obtain ⟨am, ham⟩ := mode4_ok (RawArmInstruction.init w)
  have hs := (RawArmInstruction.init w).arm_get_bit_le 22
  have hwb := (RawArmInstruction.init w).arm_get_bit_le 21
  have hPQ : (((RawArmInstruction.init w).get_bit 22 ≠ 0 ∧
      (RawArmInstruction.init w).get_bit 21 ≠ 0) ∨
      (RawArmInstruction.init w).get_bits 0 15 = 0 ∨
      (RawArmInstruction.init w).get_bits 16 19 = 15) ↔
      (((RawArmInstruction.init w).get_bit 22 = 1 ∧
      (RawArmInstruction.init w).get_bit 21 = 1) ∨
      (RawArmInstruction.init w).get_bits 0 15 = 0 ∨
      (RawArmInstruction.init w).get_bits 16 19 = 15) := by
    omega
  by_cases hc : ((RawArmInstruction.init w).get_bit 22 ≠ 0 ∧
      (RawArmInstruction.init w).get_bit 21 ≠ 0) ∨
      (RawArmInstruction.init w).get_bits 0 15 = 0 ∨
      (RawArmInstruction.init w).get_bits 16 19 = 15
  · rw [disassemble_ok h (ldm_reject _ am ham hc)]
    exact iff_of_true rfl (hPQ.mp hc)
  · rw [disassemble_err h (ldm_error _ am ham hc)]
    exact iff_of_false (by simp) (fun hq => hc (hPQ.mpr hq))

/-- Witness for C6 at the concrete word 0xE8000000 (empty register list). -/
theorem C6_ldm_reject_iff_witness :
    get_decoder (RawArmInstruction.init 0xE8000000) = some .load_or_store_multiple ∧
    (disassemble (RawArmInstruction.init 0xE8000000) false = .ok none ↔
      ((RawArmInstruction.init 0xE8000000).get_bit 22 = 1 ∧
        (RawArmInstruction.init 0xE8000000).get_bit 21 = 1) ∨
      (RawArmInstruction.init 0xE8000000).get_bits 0 15 = 0 ∨
      (RawArmInstruction.init 0xE8000000).get_bits 16 19 = 15) :=
  ⟨rfl, C6_ldm_reject_iff 0xE8000000 rfl⟩

/-- The branch-target formula exactly as claim C4 states it: the 24-bit offset
field (bits 0-23), left-shifted by 2, sign-extended using bit 25 of the shifted
value, plus a pipeline-advance bias of 8, wrapped modulo 2^32. -/
def claimedBranchTarget (w : Nat) : Nat :=
  let shifted := (w % 2 ^ 24) <<< 2
  let extended := if shifted / 2 ^ 25 % 2 = 1 then shifted + (2 ^ 32 - 2 ^ 26) else shifted
  (extended + 8) % 2 ^ 32

/-- Core computation of the branch decoder at an arbitrary 24-bit offset
field value: the Python int pipeline (shift, two's-complement sign-extension,
bias, 32-bit mask) equals the shift / add / mod formula of claim C4. -/
lemma branch_core (off : Nat) (hofflt : off < 2 ^ 24) :
    pyIntAnd ((if off <<< 2 &&& (1 <<< 25) ≠ 0 then
        pyIntOr ((off <<< 2 : Nat) : Int) (pyIntNot (((1 <<< 26) - 1 : Nat) : Int))
      else ((off <<< 2 : Nat) : Int)) + 8) (((0xFFFFFFFF : Nat) : Int)) =
    ((((if (off <<< 2) / 2 ^ 25 % 2 = 1 then
        off <<< 2 + (2 ^ 32 - 2 ^ 26) else off <<< 2) + 8) % 2 ^ 32 : Nat) : Int) := by
  have hslt : off <<< 2 < 2 ^ 26 := by
    rw [Nat.shiftLeft_eq]
    calc off * 2 ^ 2 < 2 ^ 24 * 2 ^ 2 :=
          (Nat.mul_lt_mul_right (show 0 < 2 ^ 2 by norm_num)).mpr hofflt
      _ = 2 ^ 26 := by norm_num
  set s := off <<< 2 with hsdef
  have hbit : s &&& (1 <<< 25) ≠ 0 ↔ s / 2 ^ 25 % 2 = 1 := by
    rw [show (1 <<< 25 : Nat) = 2 ^ 25 from rfl]
    exact and_two_pow_ne_zero_iff s 25
  have hA : (2 : Nat) ^ 26 = 67108864 := by norm_num
  have hB : (2 : Nat) ^ 32 = 4294967296 := by norm_num
  by_cases hb : s / 2 ^ 25 % 2 = 1
  · rw [if_pos (hbit.mpr hb), if_pos hb]
    rw [show ((1 <<< 26) - 1 : Nat) = 2 ^ 26 - 1 from rfl, pyIntOr_not_mask hslt]
    by_cases hc : 2 ^ 26 ≤ s + 8
    · have he : (s : Int) - ((2 ^ 26 : Nat) : Int) + 8 = ((s + 8 - 2 ^ 26 : Nat) : Int) := by
        omega
      rw [he, show ((0xFFFFFFFF : Nat) : Int) = ((2 ^ 32 - 1 : Nat) : Int) from rfl,
        pyIntAnd_ofNat, Nat.and_pow_two_sub_one_eq_mod]
      refine congrArg (fun n : Nat => (n : Int)) ?_
      have h1 : s + (2 ^ 32 - 2 ^ 26) + 8 = (s + 8 - 2 ^ 26) + 2 ^ 32 := by
        simp only [hA, hB] at hc ⊢; omega
      rw [h1, Nat.add_mod_right]
    · have hneg : (s : Int) - ((2 ^ 26 : Nat) : Int) + 8 = Int.negSucc (2 ^ 26 - s - 9) := by
        rw [Int.negSucc_eq]
        rw [hA] at hc ⊢; omega
      have hle : 2 ^ 26 - s - 9 < 2 ^ 32 := by rw [hA, hB]; omega
      rw [hneg, show ((0xFFFFFFFF : Nat) : Int) = ((2 ^ 32 - 1 : Nat) : Int) from rfl,
        pyIntAnd_negSucc_mask hle]
      refine congrArg (fun n : Nat => (n : Int)) ?_
      have hlt : s + (2 ^ 32 - 2 ^ 26) + 8 < 2 ^ 32 := by
        simp only [hA, hB] at hc ⊢; omega
      rw [Nat.mod_eq_of_lt hlt]
      simp only [hA, hB] at hc ⊢; omega
  · rw [if_neg (fun hcc => hb (hbit.mp hcc)), if_neg hb]
    have he : (s : Int) + 8 = ((s + 8 : Nat) : Int) := by push_cast; ring
    rw [he, show ((0xFFFFFFFF : Nat) : Int) = ((2 ^ 32 - 1 : Nat) : Int) from rfl,
      pyIntAnd_ofNat, Nat.and_pow_two_sub_one_eq_mod]

/-- **C4.**  The branch value computed by the branch / branch-with-link decoder
(lines 211-218) agrees with the formula of the claim for every word.  The
claim additionally says this value is printed in hexadecimal with mnemonic `B`
or `BL`; it is not: before printing, the decoder calls the condition lookup,
which raises `AttributeError` on every input, witnessed here at 0xEAFFFFFE
(whose computed target is 0, as in the `B #0x0` spec fixture). -/
theorem C4_branch_target :
    (∀ w : Nat, branch_offset_value (RawArmInstruction.init w) =
      ((claimedBranchTarget w : Nat) : Int)) ∧
    branch_offset_value (RawArmInstruction.init 0xEAFFFFFE) = 0 ∧
    disassemble (RawArmInstruction.init 0xEAFFFFFE) false = .error .attributeError := by
  refine ⟨?_, rfl, rfl⟩
  intro w
  have hoff : (RawArmInstruction.init w).get_bits 0 23 = w % 2 ^ 24 := by
    unfold RawArmInstruction.init RawArmInstruction.get_bits
    simp only [Nat.shiftRight_zero]
    rw [show ((1 <<< (23 - 0 + 1)) - 1 : Nat) = 2 ^ 24 - 1 from rfl,
      Nat.and_assoc, show ((0xFFFFFFFF : Nat) &&& (2 ^ 24 - 1)) = 2 ^ 24 - 1 from rfl,
      Nat.and_pow_two_sub_one_eq_mod]
  unfold branch_offset_value claimedBranchTarget
  rw [hoff]
  exact branch_core (w % 2 ^ 24) (Nat.mod_lt _ (by norm_num))

end Armv4TDisassembler

namespace Thumb1Disassembler

/-- Wrapper step: if the selected decoder returns normally, the Thumb
`disassemble` returns a string. -/
lemma disassemble_total_of_run {i : RawThumbInstruction} {d : ThumbDecoder}
    {r : Option String} (h : get_decoder i = some d) (hr : run_decoder d i = .ok r) :
    ∃ s, disassemble i = .ok s := by
  unfold disassemble
  rcases r with _ | s
  · exact ⟨"UNKNOWN", by simp only [h, hr]⟩
  · exact ⟨if s = "" then "UNKNOWN" else s, by simp only [h, hr]⟩

/-- If the Thumb scan ends at the shift-by-immediate entry, the first pattern
(add/subtract register) failed and the second matched. -/
lemma shift_conditions {v : Nat}
    (h : Armv4TDisassembler.findPattern PATTERNS v = some .shift_by_imm) :
    ¬(v &&& 0xF800 = 0x1800) ∧ v &&& 0xE000 = 0 := by
  rw [PATTERNS, Armv4TDisassembler.findPattern_cons] at h
  by_cases c1 : v &&& 0xF800 = 0x1800
  · rw [if_pos c1] at h
    exact absurd h (by simp)
  · rw [if_neg c1, Armv4TDisassembler.findPattern_cons] at h
    by_cases c2 : v &&& 0xE000 = 0
    · exact ⟨c1, c2⟩
    · rw [if_neg c2] at h
      have hmem := Armv4TDisassembler.findPattern_mem _ _ _ h
      simp at hmem

/-- Bit arithmetic behind claim C10: if bits 13-15 are clear but bits 11-15
are not the add/subtract-register prefix 00011, then bits 11-12 cannot be 3. -/
lemma shift_opcode_lt {v : Nat} (h1 : ¬(v &&& 0xF800 = 0x1800)) (h2 : v &&& 0xE000 = 0) :
    (v >>> 11) &&& 3 < 3 := by
  have e2 : v &&& 0xE000 = ((v >>> 13) &&& 7) <<< 13 := by
    rw [show (0xE000 : Nat) = 7 <<< 13 from rfl, and_shift_mask]
  rw [e2] at h2
  have h2a : (v >>> 13) &&& 7 = 0 := by
    rw [Nat.shiftLeft_eq] at h2
    rcases Nat.mul_eq_zero.mp h2 with h | h
    · exact h
    · exact absurd h (by norm_num)
  have e1 : v &&& 0xF800 = ((v >>> 11) &&& 31) <<< 11 := by
    rw [show (0xF800 : Nat) = 31 <<< 11 from rfl, and_shift_mask]
  rw [e1] at h1
  have h1a : (v >>> 11) &&& 31 ≠ 3 := by
    intro hq
    apply h1
    rw [hq]
    decide
  have d2 : v / 8192 % 8 = 0 := by
    rw [Nat.shiftRight_eq_div_pow, show (7 : Nat) = 2 ^ 3 - 1 from rfl,
      Nat.and_pow_two_sub_one_eq_mod] at h2a
    norm_num at h2a
    exact h2a
  have d1 : v / 2048 % 32 ≠ 3 := by
    rw [Nat.shiftRight_eq_div_pow, show (31 : Nat) = 2 ^ 5 - 1 from rfl,
      Nat.and_pow_two_sub_one_eq_mod] at h1a
    norm_num at h1a
    exact h1a
  have d0 : (v >>> 11) &&& 3 = v / 2048 % 4 := by
    rw [Nat.shiftRight_eq_div_pow, show (3 : Nat) = 2 ^ 2 - 1 from rfl,
      Nat.and_pow_two_sub_one_eq_mod]
  rw [d0]
  have hdd : v / 8192 = v / 2048 / 4 := by
    rw [Nat.div_div_eq_div_mul]
  rw [hdd] at d2
  omega

/-! Per-decoder progress lemmas: every Thumb class decoder returns normally
(the shift-by-immediate decoder needs its opcode bound, established from the
dispatch order). -/

lemma add_or_sub_reg_ok (i : RawThumbInstruction) :
    ∃ r, disassemble_add_or_sub_reg i = .ok r := by
  simp only [disassemble_add_or_sub_reg]
  split
  · exact ⟨_, rfl⟩
  · exact ⟨_, rfl⟩

lemma shift_by_imm_ok (i : RawThumbInstruction) (hidx : i.get_bits 11 12 < 3) :
    ∃ r, disassemble_shift_by_imm i = .ok r := by
  obtain ⟨m, hm⟩ := get?_of_lt ["LSL", "LSR", "ASR"] (i.get_bits 11 12) (by simpa using hidx)
  simp only [disassemble_shift_by_imm, hm]
  exact ⟨_, rfl⟩

lemma add_or_sub_or_cmp_or_mov_imm_ok (i : RawThumbInstruction) :
    ∃ r, disassemble_add_or_sub_or_cmp_or_mov_imm i = .ok r := by
  obtain ⟨m, hm⟩ := get?_of_lt ["MOVS", "CMP", "ADDS", "SUBS"] (i.get_bits 11 12) (by
    have hb := RawThumbInstruction.thumb_get_bits_lt i 11 12
    simpa using hb)
  simp only [disassemble_add_or_sub_or_cmp_or_mov_imm, hm]
  exact ⟨_, rfl⟩

lemma dp_reg_ok (i : RawThumbInstruction) : ∃ r, disassemble_dp_reg i = .ok r := by
  obtain ⟨m, hm⟩ := get?_of_lt
    ["ANDS", "EORS", "LSLS", "LSRS", "ASRS", "ADCS", "SBCS", "RORS",
     "TST", "NEGS", "CMP", "CMN", "ORRS", "MULS", "BICS", "MVNS"] (i.get_bits 6 9) (by
    have hb := RawThumbInstruction.thumb_get_bits_lt i 6 9
    simpa using hb)
  simp only [disassemble_dp_reg, hm]
  exact ⟨_, rfl⟩

lemma special_dp_ok (i : RawThumbInstruction) : ∃ r, disassemble_special_dp i = .ok r := by
  obtain ⟨m, hm⟩ := get?_of_lt ["ADD", "CMP", "MOV", "BX"] (i.get_bits 8 9) (by
    have hb := RawThumbInstruction.thumb_get_bits_lt i 8 9
    simpa using hb)
  simp only [disassemble_special_dp, hm]
  split
  · split
    · exact ⟨_, rfl⟩
    · exact ⟨_, rfl⟩
  · exact ⟨_, rfl⟩

lemma load_from_literal_pool_ok (i : RawThumbInstruction) :
    ∃ r, disassemble_load_from_literal_pool i = .ok r :=
  ⟨_, rfl⟩

lemma load_or_store_reg_offset_ok (i : RawThumbInstruction) :
    ∃ r, disassemble_load_or_store_reg_offset i = .ok r := by
  obtain ⟨m, hm⟩ := get?_of_lt
    ["STR", "STRH", "STRB", "LDRSB", "LDR", "LDRH", "LDRB", "LDRSH"] (i.get_bits 9 11) (by
    have hb := RawThumbInstruction.thumb_get_bits_lt i 9 11
    simpa using hb)
  simp only [disassemble_load_or_store_reg_offset, hm]
  exact ⟨_, rfl⟩

lemma load_or_store_word_or_byte_imm_offset_ok (i : RawThumbInstruction) :
    ∃ r, disassemble_load_or_store_word_or_byte_imm_offset i = .ok r :=
  ⟨_, rfl⟩

lemma load_or_store_halfword_imm_offset_ok (i : RawThumbInstruction) :
    ∃ r, disassemble_load_or_store_halfword_imm_offset i = .ok r :=
  ⟨_, rfl⟩

lemma load_or_store_to_or_from_stack_ok (i : RawThumbInstruction) :
    ∃ r, disassemble_load_or_store_to_or_from_stack i = .ok r :=
  ⟨_, rfl⟩

lemma add_to_sp_or_pc_ok (i : RawThumbInstruction) :
    ∃ r, disassemble_add_to_sp_or_pc i = .ok r :=
  ⟨_, rfl⟩

lemma adjust_sp_ok (i : RawThumbInstruction) : ∃ r, disassemble_adjust_sp i = .ok r :=
  ⟨_, rfl⟩

lemma push_or_pop_reg_list_ok (i : RawThumbInstruction) :
    ∃ r, disassemble_push_or_pop_reg_list i = .ok r := by
  simp only [disassemble_push_or_pop_reg_list]
  split
  · exact ⟨_, rfl⟩
  · exact ⟨_, rfl⟩

lemma load_or_store_multiple_ok (i : RawThumbInstruction) :
    ∃ r, disassemble_load_or_store_multiple i = .ok r := by
  simp only [disassemble_load_or_store_multiple]
  split
  · exact ⟨_, rfl⟩
  · exact ⟨_, rfl⟩

lemma conditional_branch_ok (i : RawThumbInstruction) :
    ∃ r, disassemble_conditional_branch i = .ok r := by
  obtain ⟨m, hm⟩ := get?_of_lt CONDITION_CODES (i.get_bits 8 11) (by
    have hb := RawThumbInstruction.thumb_get_bits_lt i 8 11
    simpa [CONDITION_CODES] using hb)
  simp only [disassemble_conditional_branch, hm]
  exact ⟨_, rfl⟩

lemma software_interrupt_ok (i : RawThumbInstruction) :
    ∃ r, disassemble_software_interrupt i = .ok r :=
  ⟨_, rfl⟩

lemma unconditional_branch_ok (i : RawThumbInstruction) :
    ∃ r, disassemble_unconditional_branch i = .ok r :=
  ⟨_, rfl⟩

/-- **C8.**  For every one of the 2^16 possible 16-bit values (indeed for
every natural number, truncated to 16 bits by the constructor), the Thumb
`disassemble` terminates with a string: either a mnemonic line or the
`"UNKNOWN"` sentinel, never an exception.  The only decoder with a partial
table lookup, shift-by-immediate, is reachable only with opcode bits 11-12
at most 2 because the add/subtract-register pattern is scanned first. -/
theorem C8_thumb_totality (w : Nat) :
    ∃ s, disassemble (RawThumbInstruction.init w) = .ok s := by
  rcases hdec : get_decoder (RawThumbInstruction.init w) with _ | d
  · exact ⟨"UNKNOWN", by unfold disassemble; simp only [hdec]⟩
  · cases d with
    | add_or_sub_reg =>
      obtain ⟨r, hr⟩ := add_or_sub_reg_ok (RawThumbInstruction.init w)
      exact disassemble_total_of_run hdec hr
    | shift_by_imm =>
      obtain ⟨h1, h2⟩ := shift_conditions hdec
      have hidx : (RawThumbInstruction.init w).get_bits 11 12 < 3 := shift_opcode_lt h1 h2
      obtain ⟨r, hr⟩ := shift_by_imm_ok (RawThumbInstruction.init w) hidx
      exact disassemble_total_of_run hdec hr
    | add_or_sub_or_cmp_or_mov_imm =>
      obtain ⟨r, hr⟩ := add_or_sub_or_cmp_or_mov_imm_ok (RawThumbInstruction.init w)
      exact disassemble_total_of_run hdec hr
    | dp_reg =>
      obtain ⟨r, hr⟩ := dp_reg_ok (RawThumbInstruction.init w)
      exact disassemble_total_of_run hdec hr
    | special_dp =>
      obtain ⟨r, hr⟩ := special_dp_ok (RawThumbInstruction.init w)
      exact disassemble_total_of_run hdec hr
    | load_from_literal_pool =>
      obtain ⟨r, hr⟩ := load_from_literal_pool_ok (RawThumbInstruction.init w)
      exact disassemble_total_of_run hdec hr
    | load_or_store_reg_offset =>
      obtain ⟨r, hr⟩ := load_or_store_reg_offset_ok (RawThumbInstruction.init w)
      exact disassemble_total_of_run hdec hr
    | load_or_store_word_or_byte_imm_offset =>
      obtain ⟨r, hr⟩ := load_or_store_word_or_byte_imm_offset_ok (RawThumbInstruction.init w)
      exact disassemble_total_of_run hdec hr
    | load_or_store_halfword_imm_offset =>
      obtain ⟨r, hr⟩ := load_or_store_halfword_imm_offset_ok (RawThumbInstruction.init w)
      exact disassemble_total_of_run hdec hr
    | load_or_store_to_or_from_stack =>
      obtain ⟨r, hr⟩ := load_or_store_to_or_from_stack_ok (RawThumbInstruction.init w)
      exact disassemble_total_of_run hdec hr
    | add_to_sp_or_pc =>
      obtain ⟨r, hr⟩ := add_to_sp_or_pc_ok (RawThumbInstruction.init w)
      exact disassemble_total_of_run hdec hr
    | adjust_sp =>
      obtain ⟨r, hr⟩ := adjust_sp_ok (RawThumbInstruction.init w)
      exact disassemble_total_of_run hdec hr
    | push_or_pop_reg_list =>
      obtain ⟨r, hr⟩ := push_or_pop_reg_list_ok (RawThumbInstruction.init w)
      exact disassemble_total_of_run hdec hr
    | load_or_store_multiple =>
      obtain ⟨r, hr⟩ := load_or_store_multiple_ok (RawThumbInstruction.init w)
      exact disassemble_total_of_run hdec hr
    | conditional_branch =>
      obtain ⟨r, hr⟩ := conditional_branch_ok (RawThumbInstruction.init w)
      exact disassemble_total_of_run hdec hr
    | software_interrupt =>
      obtain ⟨r, hr⟩ := software_interrupt_ok (RawThumbInstruction.init w)
      exact disassemble_total_of_run hdec hr
    | unconditional_branch =>
      obtain ⟨r, hr⟩ := unconditional_branch_ok (RawThumbInstruction.init w)
      exact disassemble_total_of_run hdec hr

/-- **C10.**  Whenever the Thumb dispatcher selects the shift-by-immediate
decoder, the opcode field bits 11-12 is at most 2, so the three-entry
mnemonic table lookup succeeds: words with bits 11-12 equal to 3 (and bits
13-15 zero) are captured by the earlier add/subtract-register entry. -/
theorem C10_shift_opcode_in_range (w : Nat)
    (h : get_decoder (RawThumbInstruction.init w) = some .shift_by_imm) :
    (RawThumbInstruction.init w).get_bits 11 12 ≤ 2 ∧
    (["LSL", "LSR", "ASR"].get?
      ((RawThumbInstruction.init w).get_bits 11 12)).isSome = true := by
  obtain ⟨h1, h2⟩ := shift_conditions h
  have hidx : (RawThumbInstruction.init w).get_bits 11 12 < 3 := shift_opcode_lt h1 h2
  refine ⟨by omega, ?_⟩
  obtain ⟨m, hm⟩ := get?_of_lt ["LSL", "LSR", "ASR"] _ (by simpa using hidx)
  rw [hm]
  rfl

/-- Witness for C10 at the concrete word 0x0042 (`LSLS r2, r0, #1`). -/
theorem C10_shift_opcode_in_range_witness :
    get_decoder (RawThumbInstruction.init 0x0042) = some .shift_by_imm ∧
    ((RawThumbInstruction.init 0x0042).get_bits 11 12 ≤ 2 ∧
    (["LSL", "LSR", "ASR"].get?
      ((RawThumbInstruction.init 0x0042).get_bits 11 12)).isSome = true) :=
  ⟨rfl, C10_shift_opcode_in_range 0x0042 rfl⟩

/-- **C9.**  Every 16-bit word with `w & 0xFF00 == 0xDF00` is dispatched to
the conditional-branch decoder (its pattern, mask 0xF000 / expected 0xD000,
precedes the software-interrupt entry, which is therefore unreachable), and
the produced text begins with `BNV`, not `SWI`. -/
theorem C9_swi_pattern_shadowed (w : Nat) (h : w &&& 0xFF00 = 0xDF00) :
    get_decoder (RawThumbInstruction.init w) = some .conditional_branch ∧
    ∃ t, disassemble (RawThumbInstruction.init w) = .ok ("BNV #0x" ++ t) := by
  have hv : (w &&& 0xFFFF) &&& 0xFF00 = 0xDF00 := by
    rw [Nat.and_assoc, show ((0xFFFF : Nat) &&& 0xFF00) = 0xFF00 from rfl, h]
  have m1 : (w &&& 0xFFFF) &&& 0xF800 = 0xD800 := by
    have h2 := mask_subsume 0xF800 hv (by decide); rw [h2]; decide
  have m2 : (w &&& 0xFFFF) &&& 0xE000 = 0xC000 := by
    have h2 := mask_subsume 0xE000 hv (by decide); rw [h2]; decide
  have m3 : (w &&& 0xFFFF) &&& 0xFC00 = 0xDC00 := by
    have h2 := mask_subsume 0xFC00 hv (by decide); rw [h2]; decide
  have m4 : (w &&& 0xFFFF) &&& 0xF000 = 0xD000 := by
    have h2 := mask_subsume 0xF000 hv (by decide); rw [h2]; decide
  have m5 : (w &&& 0xFFFF) &&& 0xF600 = 0xD600 := by
    have h2 := mask_subsume 0xF600 hv (by decide); rw [h2]; decide
  have hval : (RawThumbInstruction.init w).value = w &&& 0xFFFF := rfl
  have hdec : get_decoder (RawThumbInstruction.init w) = some .conditional_branch := by
    show Armv4TDisassembler.findPattern PATTERNS (RawThumbInstruction.init w).value =
      some .conditional_branch
    rw [hval, PATTERNS]
    rw [Armv4TDisassembler.findPattern_cons, if_neg (by rw [m1]; decide)]
    rw [Armv4TDisassembler.findPattern_cons, if_neg (by rw [m2]; decide)]
    rw [Armv4TDisassembler.findPattern_cons, if_neg (by rw [m2]; decide)]
    rw [Armv4TDisassembler.findPattern_cons, if_neg (by rw [m3]; decide)]
    rw [Armv4TDisassembler.findPattern_cons, if_neg (by rw [m3]; decide)]
    rw [Armv4TDisassembler.findPattern_cons, if_neg (by rw [m1]; decide)]
    rw [Armv4TDisassembler.findPattern_cons, if_neg (by rw [m4]; decide)]
    rw [Armv4TDisassembler.findPattern_cons, if_neg (by rw [m2]; decide)]
    rw [Armv4TDisassembler.findPattern_cons, if_neg (by rw [m4]; decide)]
    rw [Armv4TDisassembler.findPattern_cons, if_neg (by rw [m4]; decide)]
    rw [Armv4TDisassembler.findPattern_cons, if_neg (by rw [m4]; decide)]
    rw [Armv4TDisassembler.findPattern_cons, if_neg (by rw [hv]; decide)]
    rw [Armv4TDisassembler.findPattern_cons, if_neg (by rw [m5]; decide)]
    rw [Armv4TDisassembler.findPattern_cons, if_neg (by rw [m4]; decide)]
    rw [Armv4TDisassembler.findPattern_cons, if_pos m4]
  refine ⟨hdec, ?_⟩
  have hcond : (RawThumbInstruction.init w).get_bits 8 11 = 15 := by
    have hsub : (w &&& 0xFFFF) &&& 0xF00 = 0xF00 := by
      have h2 := mask_subsume 0xF00 hv (by decide); rw [h2]; decide
    rw [show (0xF00 : Nat) = 0xF <<< 8 from rfl, and_shift_mask] at hsub
    rw [Nat.shiftLeft_eq, Nat.shiftLeft_eq] at hsub
    norm_num at hsub
    show ((w &&& 0xFFFF) >>> 8) &&& 15 = 15
    omega
  have hget : CONDITION_CODES.get? ((RawThumbInstruction.init w).get_bits 8 11) =
      some "NV" := by
    rw [hcond]
    decide
  have hrun : ∃ t, run_decoder .conditional_branch (RawThumbInstruction.init w) =
      .ok (some ("BNV #0x" ++ t)) := by
    show ∃ t, disassemble_conditional_branch (RawThumbInstruction.init w) =
      .ok (some ("BNV #0x" ++ t))
    simp only [disassemble_conditional_branch, hget]
    rw [if_neg (show ¬("NV" : String) = "AL" by decide)]
    by_cases hsign : ((RawThumbInstruction.init w).get_bits 0 7 <<< 1) &&& (1 <<< 8) ≠ 0
    · rw [if_pos hsign]
      exact ⟨_, rfl⟩
    · rw [if_neg hsign]
      exact ⟨_, rfl⟩
  obtain ⟨t, ht⟩ := hrun
  refine ⟨t, ?_⟩
  have hne : ¬("BNV #0x" ++ t = "") := by
    intro hx
    have hlen := congrArg String.length hx
    rw [String.length_append] at hlen
    rw [show ("BNV #0x" : String).length = 7 from rfl,
      show ("" : String).length = 0 from rfl] at hlen
    omega
  unfold disassemble
  simp only [hdec, ht]
  rw [if_neg hne]

/-- Witness for C9 at the concrete word 0xDF2A. -/
theorem C9_swi_pattern_shadowed_witness :
    ((0xDF2A : Nat) &&& 0xFF00 = 0xDF00) ∧
    (get_decoder (RawThumbInstruction.init 0xDF2A) = some .conditional_branch ∧
    ∃ t, disassemble (RawThumbInstruction.init 0xDF2A) = .ok ("BNV #0x" ++ t)) :=
  ⟨by decide, C9_swi_pattern_shadowed 0xDF2A (by decide)⟩

end Thumb1Disassembler

end ArchStone
